import Mathlib
/-!
Verification of the florentine_abbot scan-batcher core against its spec.

Part 1 embeds the DPI resolution calculator:
  * `calculate`    — src/src/scan_batcher/calculator.py, `Calculator.__call__`
  * `calculateOld` — src/classes/calculator.py, `Calculator.__call__`
Python floats are modelled as rationals (the arithmetic involved is exact on
the inputs exercised), Python ints as `Int`, `None`-able arguments as `Option`,
raised `ValueError`s as an `Except` error.

Part 2 embeds the template substitution engine of
src/src/scan_batcher/workflows/vuescan/workflow.py
(`_convert_value` and `_replace_templates_to_value`), with strings as
`List Char` and the diagnostic log as an accumulated `List String`.
-/

/-- Conversion factor from centimeters to inches (`_CM_TO_INCH = 2.54`). -/
def cmToInch : ℚ := 254 / 100

/-- Python `int()` applied to a float: truncation toward zero. -/
def pyInt (q : ℚ) : ℤ := if 0 ≤ q then ⌊q⌋ else ⌈q⌉

/-- Source: `calculated_dpi = image_min_side / (photo_min_side / self._CM_TO_INCH)`. -/
def calculatedDpi (photo : ℚ) (image : ℤ) : ℚ := (image : ℚ) / (photo / cmToInch)

/-- The `ValueError`s raised by `Calculator.__call__`, by message. -/
inductive CalcError : Type where
  /-- Message: "Photo and image dimensions must be positive". -/
  | invalidDimension : CalcError
  /-- Message: "Invalid rounding strategy". -/
  | invalidRounding : CalcError
  /-- Message: "min_dpi cannot be greater than max_dpi". -/
  | invalidBounds : CalcError
  /-- Message: "All DPI values in dpi_list must be positive". -/
  | invalidMenuEntry : CalcError
deriving DecidableEq

/-- Source: `min_dpi is not None and max_dpi is not None and min_dpi > max_dpi`. -/
def boundsBad (mn mx : Option ℤ) : Bool :=
  match mn, mx with
  | some a, some b => decide (b < a)
  | _, _ => false

/-- The min/max clamping applied after discretization:
`recommended_dpi = max(min_dpi, recommended_dpi)` then
`recommended_dpi = min(max_dpi, recommended_dpi)`, each skipped when `None`. -/
def applyBounds (mn mx : Option ℤ) (r : ℚ) : ℚ :=
  let r1 := match mn with
    | some m => max (m : ℚ) r
    | none => r
  match mx with
  | some M => min (M : ℚ) r1
  | none => r1

/-- The `for index, value in enumerate(dpi_list)` loop of the new calculator:
positive entries are skipped while `recommended_dpi >= value`; at the first
`value` with `recommended_dpi < value` the rounding strategy picks a value and
the loop breaks (`prev` plays the role of `dpi_list[index-1]`, `none` meaning
`index == 0`); a non-positive entry raises; falling off the end returns `none`
(the `for ... else` branch then selects the last entry). -/
def discretize (rounding : String) (r : ℚ) : Option ℤ → List ℤ → Except CalcError (Option ℚ)
  | _, [] => .ok none
  | prev, v :: rest =>
    if 0 < v then
      if r < (v : ℚ) then
        match prev with
        | none => .ok (some ((v : ℚ)))
        | some p =>
          if rounding = "nr" then
            .ok (some (if (v : ℚ) - r ≤ r - (p : ℚ) then (v : ℚ) else (p : ℚ)))
          else if rounding = "mx" then .ok (some ((v : ℚ)))
          else if rounding = "mn" then .ok (some ((p : ℚ)))
          else .ok (some r)
      else discretize rounding r (some v) rest
    else .error .invalidMenuEntry

/-- Recommended DPI before clamping, from the loop result: the picked value on
break, else (`for ... else`) the last entry of the sorted menu. -/
def recFromOpt (s : List ℤ) (o : Option ℚ) : ℚ :=
  match o with
  | some x => x
  | none => ((s.getLastD 0 : ℤ) : ℚ)

/-- Source: `dpi_options = [(dpi, int(dpi * photo_min_side / self._CM_TO_INCH)) for dpi in dpi_list]`. -/
def menuOptions (photo : ℚ) (sorted : List ℤ) : List (ℤ × ℤ) :=
  sorted.map (fun d => (d, pyInt ((d : ℚ) * photo / cmToInch)))

/-- Embedding of `Calculator.__call__` from src/src/scan_batcher/calculator.py. -/
def calculate (photo_min_side : ℚ) (image_min_side : ℤ) (min_dpi max_dpi : Option ℤ)
    (dpi_list : Option (List ℤ)) (rounding : String) :
    Except CalcError (ℚ × ℤ × List (ℤ × ℤ)) :=
  if photo_min_side ≤ 0 ∨ image_min_side ≤ 0 then .error .invalidDimension
  else if ¬ (rounding = "nr" ∨ rounding = "mx" ∨ rounding = "mn") then .error .invalidRounding
  else if boundsBad min_dpi max_dpi then .error .invalidBounds
  else
    let sorted := List.insertionSort (· ≤ ·) (dpi_list.getD [])
    let cdp := calculatedDpi photo_min_side image_min_side
    match sorted with
    | [] => .ok (cdp, pyInt (applyBounds min_dpi max_dpi cdp), [])
    | s0 :: srest =>
      match discretize rounding cdp none (s0 :: srest) with
      | .error e => .error e
      | .ok o =>
        .ok (cdp, pyInt (applyBounds min_dpi max_dpi (recFromOpt (s0 :: srest) o)),
             menuOptions photo_min_side (s0 :: srest))

/-- Decidable equality of `Except` values, for evaluating concrete calls. -/
instance exceptDecEq {ε α : Type} [DecidableEq ε] [DecidableEq α] :
    DecidableEq (Except ε α) := fun x y =>
  match x, y with
  | .ok a, .ok b =>
    if h : a = b then .isTrue (by rw [h])
    else .isFalse (by intro hc; injection hc; contradiction)
  | .error a, .error b =>
    if h : a = b then .isTrue (by rw [h])
    else .isFalse (by intro hc; injection hc; contradiction)
  | .ok _, .error _ => .isFalse (by intro hc; injection hc)
  | .error _, .ok _ => .isFalse (by intro hc; injection hc)

/-- The element playing the role of `dpi_list[index-1]` after traversing a
skipped block `l` (the original `prev` when `l` is empty). -/
def lastOr (l : List ℤ) (prev : Option ℤ) : Option ℤ :=
  match l.getLast? with
  | some x => some x
  | none => prev

/-- Python truthiness of an optional integer (`if minimal_dpi:`):
`None` and `0` are falsy. -/
def truthy (o : Option ℤ) : Bool :=
  match o with
  | none => false
  | some n => decide (n ≠ 0)

/-- Source: `sorted(dpi_list) if dpi_list else []` of the old calculator. -/
def pySortedMenu (dpi_list : Option (List ℤ)) : List ℤ :=
  List.insertionSort (· ≤ ·) (dpi_list.getD [])

/-- Effective minimal DPI of the old calculator:
`minimal_dpi = dpi_list[0] if dpi_list[0] > minimal_dpi else minimal_dpi`
when truthy and the menu is non-empty; the first menu entry when falsy and the
menu is non-empty; otherwise unchanged/`None`. -/
def oldMin (minimal_dpi : Option ℤ) (sorted : List ℤ) : Option ℤ :=
  if truthy minimal_dpi then
    match sorted with
    | [] => minimal_dpi
    | s0 :: _ => some (if minimal_dpi.getD 0 < s0 then s0 else minimal_dpi.getD 0)
  else
    match sorted with
    | [] => none
    | s0 :: _ => some s0

/-- Effective maximal DPI of the old calculator, symmetric with the last menu
entry (`dpi_list[-1]`). -/
def oldMax (maximal_dpi : Option ℤ) (sorted : List ℤ) : Option ℤ :=
  if truthy maximal_dpi then
    match sorted with
    | [] => maximal_dpi
    | _ :: _ => some (if sorted.getLastD 0 < maximal_dpi.getD 0 then sorted.getLastD 0
                      else maximal_dpi.getD 0)
  else
    match sorted with
    | [] => none
    | _ :: _ => some (sorted.getLastD 0)

/-- The discretization loop of the old calculator: no positivity check, no
`for ... else` (the running value stays `calculated_dpi` when nothing is
larger), and `dpi_list[index - 1]` at `index == 0` is Python negative indexing,
i.e. the LAST entry (`lastEl`). -/
def oldLoop (rounding : String) (r : ℚ) (lastEl : ℤ) : Option ℤ → List ℤ → ℚ
  | _, [] => r
  | prev, v :: rest =>
    if r < (v : ℚ) then
      if rounding = "nr" then
        match prev with
        | some p => if (v : ℚ) - r > r - (p : ℚ) then (p : ℚ) else (v : ℚ)
        | none => (v : ℚ)
      else if rounding = "mx" then (v : ℚ)
      else if rounding = "mn" then
        match prev with
        | some p => (p : ℚ)
        | none => (lastEl : ℚ)
      else r
    else oldLoop rounding r lastEl (some v) rest

/-- Embedding of `Calculator.__call__` from src/classes/calculator.py (the old
variant: width/height pairs, no validation, float result, per-axis option
extents). -/
def calculateOld (photo_w photo_h : ℚ) (image_w image_h : ℤ)
    (minimal_dpi maximal_dpi : Option ℤ) (dpi_list : Option (List ℤ)) (rounding : String) :
    ℚ × ℚ × List (ℤ × ℤ × ℤ) :=
  let sorted := pySortedMenu dpi_list
  let minimal := oldMin minimal_dpi sorted
  let maximal := oldMax maximal_dpi sorted
  let cdp := max (((max image_w image_h : ℤ) : ℚ) / (max photo_w photo_h / cmToInch))
                 (((min image_w image_h : ℤ) : ℚ) / (min photo_w photo_h / cmToInch))
  let rec0 := oldLoop rounding cdp (sorted.getLastD 0) none sorted
  let r1 := if truthy minimal then max ((minimal.getD 0 : ℤ) : ℚ) rec0 else rec0
  let r2 := if truthy maximal then min ((maximal.getD 0 : ℤ) : ℚ) r1 else r1
  (cdp, r2,
   sorted.map (fun d => (d, pyInt ((d : ℚ) * photo_w / cmToInch),
                         pyInt ((d : ℚ) * photo_h / cmToInch))))

/-- The opening brace character. -/
def lbrace : Char := Char.ofNat 123

/-- The closing brace character. -/
def rbrace : Char := Char.ofNat 125

/-- The newline character (not matched by `.` in the regex `{(.+?)}`). -/
def nlChar : Char := Char.ofNat 10

/-- The field separator of the template mini-language. -/
def colonChar : Char := Char.ofNat 58

/-- After the first inner character of a lazy `{(.+?)}` match: collect
non-newline characters up to the first closing brace; returns the collected
inner characters and the characters after the brace. -/
def scanClose : List Char → Option (List Char × List Char)
  | [] => none
  | c :: rest =>
    if c = rbrace then some ([], rest)
    else if c = nlChar then none
    else
      match scanClose rest with
      | some (inn, r2) => some (c :: inn, r2)
      | none => none

/-- A `{(.+?)}` match attempt at an opening brace (given the characters after
the brace): `.+?` consumes one character (any non-newline, including braces),
then lazily extends to the first closing brace. Returns the group (inner text)
and the characters after the match. -/
def matchAt : List Char → Option (List Char × List Char)
  | [] => none
  | c :: rest =>
    if c = nlChar then none
    else
      match scanClose rest with
      | some (inn, r2) => some (c :: inn, r2)
      | none => none

/-- Source: `re.finditer("{(.+?)}", string)`: scan left to right; at each opening brace
attempt a match; on success continue after the match (non-overlapping),
otherwise advance one character. `fuel` bounds the recursion; every step
consumes at least one character, so `fuel = length` is never exhausted early. -/
def findTemplatesF : ℕ → List Char → List (List Char)
  | 0, _ => []
  | fuel + 1, s =>
    match s with
    | [] => []
    | c :: rest =>
      if c = lbrace then
        match matchAt rest with
        | some (inner, after) => inner :: findTemplatesF fuel after
        | none => findTemplatesF fuel rest
      else findTemplatesF fuel rest

/-- The list of matched template groups (contents between the braces) of a
string, left to right. -/
def findTemplates (s : List Char) : List (List Char) :=
  findTemplatesF s.length s

/-- Python `value.split(":")`: always returns at least one field. -/
def splitOnColon : List Char → List (List Char)
  | [] => [[]]
  | c :: rest =>
    if c = colonChar then [] :: splitOnColon rest
    else
      match splitOnColon rest with
      | [] => [[c]]
      | h :: t => (c :: h) :: t

/-- The `VuescanWorkflow.Exception`s raised by `_convert_value`, by message. -/
inductive TemplateError : Type where
  /-- Message: the "Key ... not found" error. -/
  | keyNotFound : TemplateError
  /-- Message: "Template conversion error". -/
  | conversionError : TemplateError
  /-- Message: "An empty template was found". -/
  | emptyTemplate : TemplateError
deriving DecidableEq

/-- Source: `self._templates[key]` on the workflow's template dictionary, modelled as
an association list (values already coerced to strings, as `str(value)` is
applied before formatting). -/
def lookupKey (ctx : List (String × String)) (k : String) : Option String :=
  match ctx with
  | [] => none
  | (a, b) :: rest => if a = k then some b else lookupKey rest k

/-- Digit-string value, `none` unless non-empty and all decimal digits. -/
def digitsVal (l : List Char) : Option ℕ :=
  if !l.isEmpty && l.all Char.isDigit then
    some (l.foldl (fun acc c => acc * 10 + (c.toNat - 48)) 0)
  else none

/-- Python `int(str)` on the sign-and-digits core (whitespace trimming is not
modelled; no caller produces padded fields): `none` models the `ValueError`. -/
def pyParseInt (s : List Char) : Option ℤ :=
  match s with
  | [] => none
  | c :: rest =>
    if c = Char.ofNat 45 then (digitsVal rest).map (fun n => -(n : ℤ))
    else if c = Char.ofNat 43 then (digitsVal rest).map (fun n => (n : ℤ))
    else (digitsVal s).map (fun n => (n : ℤ))

/-- Source: `length = int(fields[1]) if len(fields) > 1 else 0` (fields after the key). -/
def lengthField (restF : List (List Char)) : Option ℤ :=
  match restF with
  | [] => some 0
  | f1 :: _ => pyParseInt f1

/-- Source: `alignment = fields[2] if len(fields) > 2 and fields[2] in ("<", ">", "^")
else "<"`. -/
def alignField (restF : List (List Char)) : Char :=
  match restF with
  | _ :: al :: _ =>
    if al = ['<'] then '<'
    else if al = ['>'] then '>'
    else if al = ['^'] then '^'
    else '<'
  | _ => '<'

/-- Source: `placeholder = fields[3] if len(fields) > 3 else ""` (the fill character). -/
def padField (restF : List (List Char)) : List Char :=
  match restF with
  | _ :: _ :: ph :: _ => ph
  | _ => []

/-- Source: `"{:" + placeholder + alignment + length + "s}"` applied with `.format`:
a multi-character (or brace) fill or a negative width makes the format spec
invalid (`ValueError`, modelled as `.error`); otherwise the value is padded
with the fill character to the requested width under the alignment, and used
unpadded when already at least that wide. -/
def pyFormatS (fill : List Char) (alignment : Char) (width : ℤ) (v : List Char) :
    Except Unit (List Char) :=
  if 1 < fill.length ∨ fill = [lbrace] ∨ fill = [rbrace] ∨ width < 0 then .error ()
  else
    let f := fill.headD ' '
    let padLen := width.toNat - v.length
    if alignment = '>' then .ok (List.replicate padLen f ++ v)
    else if alignment = '^' then
      .ok (List.replicate (padLen / 2) f ++ v ++ List.replicate (padLen - padLen / 2) f)
    else .ok (v ++ List.replicate padLen f)

/-- The body of `_convert_value` after the key is split off: dictionary lookup
(`KeyError` → "Key not found"), then width parsing and formatting inside one
`try` whose `ValueError` becomes "Template conversion error". -/
def convertFields (ctx : List (String × String)) (key : List Char)
    (restF : List (List Char)) : Except TemplateError (List Char) :=
  match lookupKey ctx (String.mk key) with
  | none => .error .keyNotFound
  | some v =>
    match lengthField restF with
    | none => .error .conversionError
    | some width =>
      match pyFormatS (padField restF) (alignField restF) width v.data with
      | .ok r => .ok r
      | .error _ => .error .conversionError

/-- Embedding of `VuescanWorkflow._convert_value` (the argument is the matched
template's inner text, `template[1:-1]`). `fields` is never empty, so the
"An empty template was found" branch is dead code. -/
def convertValue (ctx : List (String × String)) (value : List Char) :
    Except TemplateError (List Char) :=
  match splitOnColon value with
  | [] => .error .emptyTemplate
  | key :: restF => convertFields ctx key restF

/-- Python `str.replace(pat, rep)`: replace ALL non-overlapping occurrences,
left to right. `fuel = length` is never exhausted early since every step
consumes at least one character (all patterns used are non-empty brace spans). -/
def replaceAllF (pat rep : List Char) : ℕ → List Char → List Char
  | 0, s => s
  | _, [] => []
  | fuel + 1, c :: rest =>
    if pat.isPrefixOf (c :: rest) then
      rep ++ replaceAllF pat rep fuel (List.drop (pat.length - 1) rest)
    else c :: replaceAllF pat rep fuel rest

/-- Source: `result.replace(template, value)`. -/
def replaceAll (pat rep s : List Char) : List Char := replaceAllF pat rep s.length s

/-- The message logged when a template fails to convert:
`f"Error converting template '{string[1:-1]}' to value"` — note the source
interpolates the WHOLE string minus its first and last character, not the
failing template. -/
def errMsg (orig : List Char) : String :=
  "Error converting template \x27" ++ String.mk ((orig.drop 1).dropLast) ++ "\x27 to value"

/-- One iteration of the `_replace_templates_to_value` loop: convert the
matched group; on failure log and continue; on success replace ALL occurrences
of the full span `{inner}` in the accumulated result. -/
def applyTemplate (ctx : List (String × String)) (orig : List Char)
    (acc : List Char × List String) (inner : List Char) : List Char × List String :=
  match convertValue ctx inner with
  | .ok v => (replaceAll (lbrace :: (inner ++ [rbrace])) v acc.1, acc.2)
  | .error _ => (acc.1, acc.2 ++ [errMsg orig])

/-- Embedding of `VuescanWorkflow._replace_templates_to_value`, paired with the
list of diagnostics sent to the recorder. -/
def replaceTemplates (ctx : List (String × String)) (s : List Char) :
    List Char × List String :=
  (findTemplates s).foldl (applyTemplate ctx s) (s, [])

/-- Spec-worded options list, for comparison: pairs each (sorted) menu entry
`d` with `floor(d * photo_long / 2.54)` computed from the LONG photo side, as
section 4.1 step 9 of the spec demands. -/
def optionsSpecLong (photo_long : ℚ) (menu : List ℤ) : List (ℤ × ℤ) :=
  (List.insertionSort (· ≤ ·) menu).map (fun d => (d, ⌊(d : ℚ) * photo_long / cmToInch⌋))

/-- Source: `re.finditer` match spans as (start, end) character positions into
the string the iterator was created over (the old workflow variant slices with
these indices). -/
def findSpansF : ℕ → ℕ → List Char → List (ℕ × ℕ)
  | 0, _, _ => []
  | fuel + 1, pos, s =>
    match s with
    | [] => []
    | c :: rest =>
      if c = lbrace then
        match matchAt rest with
        | some (inner, after) =>
          (pos, pos + inner.length + 2) :: findSpansF fuel (pos + inner.length + 2) after
        | none => findSpansF fuel (pos + 1) rest
      else findSpansF fuel (pos + 1) rest

/-- Match spans (start, end) of `{(.+?)}` over a string, left to right. -/
def findSpans (s : List Char) : List (ℕ × ℕ) := findSpansF s.length 0 s

/-- The message logged by the OLD workflow variant on a failed conversion:
`f"Error converting template \x27{template[1:-1]}\x27 to value"`, where
`template` is the current (reassigned) slice, not the whole string. -/
def errMsgOld (t : List Char) : String :=
  "Error converting template \x27" ++ String.mk ((t.drop 1).dropLast) ++ "\x27 to value"

/-- Embedding of `VueScanWorkflow._convert_template_to_value` from
src/classes/workflow.py. The loop REASSIGNS its own parameter each iteration
(`template = template[match.start():match.end()]`) while the match positions
index the ORIGINAL string the `finditer` iterator was created over — so from
the second match on, the slice is taken out of the first span's short text
(out of range, hence usually empty) and conversion fails with a diagnostic.
The folded state is (result, template, diagnostics); Python out-of-range
slices clamp, as `List.drop`/`List.take` do. -/
def convertTemplateOld (ctx : List (String × String)) (s : List Char) :
    List Char × List String :=
  let step := fun (acc : List Char × List Char × List String) (span : ℕ × ℕ) =>
    let t := ((acc.2.1).drop span.1).take (span.2 - span.1)
    match convertValue ctx ((t.drop 1).dropLast) with
    | .ok v => (replaceAll t v acc.1, t, acc.2.2)
    | .error _ => (acc.1, t, acc.2.2 ++ [errMsgOld t])
  let r := (findSpans s).foldl step (s, s, [])
  (r.1, r.2.2)


theorem calculatedDpi_pos {photo : ℚ} {image : ℤ} (hp : 0 < photo) (hi : 0 < image) :
    0 < calculatedDpi photo image := by
  unfold calculatedDpi
  have h1 : (0 : ℚ) < (image : ℚ) := by exact_mod_cast hi
  have h2 : (0 : ℚ) < photo / cmToInch := by
    apply div_pos hp
    unfold cmToInch
    norm_num
  exact div_pos h1 h2

theorem pyInt_intCast (n : ℤ) : pyInt ((n : ℚ)) = n := by
  unfold pyInt
  split
  · exact Int.floor_intCast n
  · exact Int.ceil_intCast n

theorem lastOr_concat (l : List ℤ) (a : ℤ) (prev : Option ℤ) :
    lastOr (l ++ [a]) prev = some a := by
  unfold lastOr
  rw [List.getLast?_concat]

theorem lastOr_cons (x : ℤ) (xs : List ℤ) (prev : Option ℤ) :
    lastOr (x :: xs) prev = lastOr xs (some x) := by
  unfold lastOr
  cases xs with
  | nil => simp
  | cons y ys =>
    rw [List.getLast?_cons_cons]
    obtain ⟨z, hz⟩ : ∃ z, (y :: ys).getLast? = some z :=
      Option.isSome_iff_exists.mp (List.getLast?_isSome.mpr (by simp))
    rw [hz]

/-- Entries that are positive and do not exceed the running DPI are skipped by
the loop, which tracks the last of them as the previous entry. -/
theorem discretize_skip (rnd : String) (r : ℚ) :
    ∀ (l1 : List ℤ) (prev : Option ℤ) (rest : List ℤ),
      (∀ x ∈ l1, 0 < x ∧ (x : ℚ) ≤ r) →
      discretize rnd r prev (l1 ++ rest) = discretize rnd r (lastOr l1 prev) rest := by
  intro l1
  induction l1 with
  | nil =>
    intro prev rest _
    simp [lastOr]
  | cons x xs ih =>
    intro prev rest h
    have hx := h x (by simp)
    have hnotlt : ¬ r < (x : ℚ) := not_lt.mpr hx.2
    have hstep : discretize rnd r prev ((x :: xs) ++ rest)
        = discretize rnd r (some x) (xs ++ rest) := by
      simp only [List.cons_append, discretize]
      rw [if_pos hx.1, if_neg hnotlt]
      rfl
    rw [hstep, ih (some x) rest (fun y hy => h y (by simp [hy])), lastOr_cons]

/-- On a list of positive entries the loop never raises. -/
theorem discretize_ok (rnd : String) (r : ℚ) :
    ∀ (l : List ℤ) (prev : Option ℤ), (∀ x ∈ l, 0 < x) →
      ∃ o, discretize rnd r prev l = .ok o := by
  intro l
  induction l with
  | nil => intro prev _; exact ⟨none, rfl⟩
  | cons v rest ih =>
    intro prev h
    have hv := h v (by simp)
    by_cases hlt : r < (v : ℚ)
    · refine ⟨?_, ?_⟩
      · exact (match prev with
          | none => some ((v : ℚ))
          | some p =>
            if rnd = "nr" then some (if (v : ℚ) - r ≤ r - (p : ℚ) then (v : ℚ) else (p : ℚ))
            else if rnd = "mx" then some ((v : ℚ))
            else if rnd = "mn" then some ((p : ℚ))
            else some r)
      · simp only [discretize]
        rw [if_pos hv, if_pos hlt]
        cases prev with
        | none => rfl
        | some p =>
          by_cases h1 : rnd = "nr" <;> by_cases h2 : rnd = "mx" <;> by_cases h3 : rnd = "mn" <;>
            simp [h1, h2, h3]
    · obtain ⟨o, ho⟩ := ih (some v) (fun y hy => h y (by simp [hy]))
      refine ⟨o, ?_⟩
      simp only [discretize]
      rw [if_pos hv, if_neg hlt]
      exact ho

/-- Evaluation of `calculate` on a non-empty sorted menu, given the outcome of the
discretization loop. -/
theorem calculate_menu_ok (photo : ℚ) (image : ℤ) (mn mx : Option ℤ) (menu s : List ℤ)
    (rnd : String) (o : Option ℚ)
    (hp : 0 < photo) (hi : 0 < image)
    (hr : rnd = "nr" ∨ rnd = "mx" ∨ rnd = "mn")
    (hb : boundsBad mn mx = false)
    (hsort : List.insertionSort (· ≤ ·) menu = s)
    (hne : s ≠ [])
    (hd : discretize rnd (calculatedDpi photo image) none s = .ok o) :
    calculate photo image mn mx (some menu) rnd =
      .ok (calculatedDpi photo image, pyInt (applyBounds mn mx (recFromOpt s o)),
           menuOptions photo s) := by
  have h1 : ¬ (photo ≤ 0 ∨ image ≤ 0) := by
    push_neg
    exact ⟨hp, hi⟩
  unfold calculate
  rw [if_neg h1, if_neg (not_not_intro hr), if_neg (by simp [hb])]
  simp only [Option.getD_some]
  rw [hsort]
  cases s with
  | nil => exact absurd rfl hne
  | cons s0 srest =>
    simp only []
    rw [hd]

/-- C1 (amended): for a non-empty DPI menu and NEAREST rounding, when
`calculated_dpi` falls strictly between two adjacent entries of the sorted menu
and is exactly equidistant from both, `calculate` selects the UPPER (next)
entry as `recommended_dpi` (the `<=` comparison assigns ties to `value`, the
larger entry), not the lower one. -/
theorem nearest_tie_selects_upper (photo : ℚ) (image : ℤ) (menu l1 l2 : List ℤ) (p v : ℤ)
    (hp0 : 0 < photo) (hi0 : 0 < image)
    (hsort : List.insertionSort (· ≤ ·) menu = l1 ++ p :: v :: l2)
    (hl1 : ∀ x ∈ l1, 0 < x ∧ (x : ℚ) ≤ calculatedDpi photo image)
    (hpp : 0 < p)
    (hplt : (p : ℚ) < calculatedDpi photo image)
    (hvgt : calculatedDpi photo image < (v : ℚ))
    (htie : (v : ℚ) - calculatedDpi photo image = calculatedDpi photo image - (p : ℚ)) :
    calculate photo image none none (some menu) "nr" =
      .ok (calculatedDpi photo image, v, menuOptions photo (l1 ++ p :: v :: l2)) := by
  have h0r : 0 < calculatedDpi photo image := calculatedDpi_pos hp0 hi0
  have hv0 : 0 < v := by exact_mod_cast h0r.trans hvgt
  have hc : ∀ x ∈ l1 ++ [p], 0 < x ∧ (x : ℚ) ≤ calculatedDpi photo image := by
    intro x hx
    rcases List.mem_append.mp hx with h1 | h2
    · exact hl1 x h1
    · have hxp : x = p := by simpa using h2
      subst hxp
      exact ⟨hpp, le_of_lt hplt⟩
  have hd : discretize "nr" (calculatedDpi photo image) none (l1 ++ p :: v :: l2)
      = .ok (some ((v : ℚ))) := by
    have hsplit : l1 ++ p :: v :: l2 = (l1 ++ [p]) ++ (v :: l2) := by simp
    rw [hsplit, discretize_skip "nr" (calculatedDpi photo image) (l1 ++ [p]) none (v :: l2) hc,
      lastOr_concat]
    simp only [discretize]
    rw [if_pos hv0, if_pos hvgt]
    simp [le_of_eq htie]
  have hmain := calculate_menu_ok photo image none none menu (l1 ++ p :: v :: l2) "nr"
    (some ((v : ℚ))) hp0 hi0 (Or.inl rfl) rfl hsort (by simp) hd
  rw [hmain]
  simp [applyBounds, recFromOpt, pyInt_intCast]

/-- C1 witness: menu `[100, 300]`, `calculated_dpi = 200` (exact tie):
the upper entry 300 is selected. -/
theorem nearest_tie_selects_upper_witness :
    calculate (127/50) 200 none none (some [100, 300]) "nr" =
      .ok (calculatedDpi (127/50) 200, 300, menuOptions (127/50) [100, 300]) := by
  have hcd : calculatedDpi (127/50) 200 = 200 := by norm_num [calculatedDpi, cmToInch]
  exact nearest_tie_selects_upper (127/50) 200 [100, 300] [] [] 100 300
    (by norm_num) (by norm_num) (by decide) (by simp) (by decide)
    (by rw [hcd]; norm_num) (by rw [hcd]; norm_num) (by rw [hcd]; norm_num)

/-- C1 counterexample: menu `[100, 300]`, `calculated_dpi = 200` lies strictly
between the adjacent entries 100 and 300 with equal distances (100 each), yet
`calculate` returns `recommended_dpi = 300` (the upper entry), not the lower
entry 100 the claim predicts. -/
theorem nearest_tie_lower_refuted :
    calculate (127/50) 200 none none (some [100, 300]) "nr" =
      .ok (200, 300, [(100, 100), (300, 300)])
    ∧ (300 : ℚ) - 200 = 200 - (100 : ℚ)
    ∧ (300 : ℤ) ≠ 100 := by
  refine ⟨?_, by norm_num, by decide⟩
  norm_num [calculate, calculatedDpi, cmToInch, discretize, boundsBad, applyBounds, recFromOpt,
    menuOptions, pyInt, List.insertionSort, List.orderedInsert]

/-- C4 (amended): in the scan_batcher calculator, for a non-empty menu whose
smallest (first sorted) entry is strictly greater than `calculated_dpi`,
ROUND_DOWN (`"mn"`) selects that smallest entry (the explicit `index == 0`
branch applies before any rounding-mode dispatch); the old classes calculator
has no such branch — its `"mn"` case evaluates `dpi_list[index - 1]` at
`index == 0`, which by Python negative indexing is the LAST (largest) entry. -/
theorem round_down_first_entry (photo : ℚ) (image : ℤ) (menu : List ℤ) (m : ℤ) (rest : List ℤ)
    (hp : 0 < photo) (hi : 0 < image)
    (hsort : List.insertionSort (· ≤ ·) menu = m :: rest)
    (hgt : calculatedDpi photo image < (m : ℚ))
    (r : ℚ) (lastEl v2 : ℤ) (rest2 : List ℤ) (hv2 : r < (v2 : ℚ)) :
    calculate photo image none none (some menu) "mn" =
      .ok (calculatedDpi photo image, m, menuOptions photo (m :: rest))
    ∧ oldLoop "mn" r lastEl none (v2 :: rest2) = ((lastEl : ℤ) : ℚ) := by
  refine ⟨?_, ?_⟩
  case refine_2 =>
    simp only [oldLoop]
    rw [if_pos hv2]
    simp [show ("mn" : String) ≠ "nr" from by decide,
      show ("mn" : String) ≠ "mx" from by decide]
  have h0r : 0 < calculatedDpi photo image := calculatedDpi_pos hp hi
  have hm0 : 0 < m := by exact_mod_cast h0r.trans hgt
  have hd : discretize "mn" (calculatedDpi photo image) none (m :: rest)
      = .ok (some ((m : ℚ))) := by
    simp only [discretize]
    rw [if_pos hm0, if_pos hgt]
  have hmain := calculate_menu_ok photo image none none menu (m :: rest) "mn"
    (some ((m : ℚ))) hp hi (Or.inr (Or.inr rfl)) rfl hsort (by simp) hd
  rw [hmain]
  simp [applyBounds, recFromOpt, pyInt_intCast]

/-- C4 witness: `calculated_dpi = 100`, menu `[300]`: the scan_batcher variant
returns 300 = menu[0]; for the old loop, 100 below entry 200 yields the
supplied last entry 300. -/
theorem round_down_first_entry_witness :
    (calculate (127/50) 100 none none (some [300]) "mn" =
      .ok (calculatedDpi (127/50) 100, 300, menuOptions (127/50) [300]))
    ∧ oldLoop "mn" 100 300 none [200, 300] = ((300 : ℤ) : ℚ) := by
  have hcd : calculatedDpi (127/50) 100 = 100 := by norm_num [calculatedDpi, cmToInch]
  exact round_down_first_entry (127/50) 100 [300] 300 []
    (by norm_num) (by norm_num) (by decide) (by rw [hcd]; norm_num)
    100 300 200 [300] (by norm_num)

/-- C4 counterexample: in the old calculator, `"mn"` at `index == 0` evaluates
`dpi_list[index - 1] = dpi_list[-1]`, the LAST (largest) entry, by Python
negative indexing: with `calculated_dpi = 100` and menu `[200, 300]` it returns
`recommended_dpi = 300`, not the smallest entry 200 the claim predicts. -/
theorem round_down_smallest_refuted :
    calculateOld (127/50) (127/50) 100 100 none none (some [200, 300]) "mn" =
      (100, 300, [(200, 200, 200), (300, 300, 300)])
    ∧ ((300 : ℚ)) ≠ ((200 : ℤ) : ℚ) := by
  refine ⟨?_, by norm_num⟩
  norm_num [calculateOld, pySortedMenu, oldMin, oldMax, oldLoop, truthy, cmToInch, pyInt,
    List.insertionSort, List.orderedInsert,
    show ("mn" : String) ≠ "nr" from by decide, show ("mn" : String) ≠ "mx" from by decide]

/-- C3 (amended): with an absent or empty DPI menu and no bounds, the
scan_batcher calculator returns `recommended_dpi = int(calculated_dpi)` —
truncation toward zero (`pyInt`) — with no discretization and no options; the
old classes calculator applies NO truncation there: its `recommended_dpi`
equals `calculated_dpi` itself, the raw float, also with no options. -/
theorem empty_menu_truncates (photo : ℚ) (image : ℤ) (rnd : String)
    (hp : 0 < photo) (hi : 0 < image)
    (hr : rnd = "nr" ∨ rnd = "mx" ∨ rnd = "mn")
    (pw ph : ℚ) (iw ih : ℤ) (menu2 : Option (List ℤ)) (rnd2 : String)
    (hm2 : menu2.getD [] = []) :
    calculate photo image none none none rnd =
      .ok (calculatedDpi photo image, pyInt (calculatedDpi photo image), [])
    ∧ calculate photo image none none (some []) rnd =
      .ok (calculatedDpi photo image, pyInt (calculatedDpi photo image), [])
    ∧ (calculateOld pw ph iw ih none none menu2 rnd2).2.1
        = (calculateOld pw ph iw ih none none menu2 rnd2).1
    ∧ (calculateOld pw ph iw ih none none menu2 rnd2).2.2 = [] := by
  have h1 : ¬ (photo ≤ 0 ∨ image ≤ 0) := by push_neg; exact ⟨hp, hi⟩
  have hsort : pySortedMenu menu2 = [] := by
    unfold pySortedMenu
    rw [hm2]
    rfl
  refine ⟨?_, ?_, ?_, ?_⟩
  · unfold calculate
    rw [if_neg h1, if_neg (not_not_intro hr)]
    simp [boundsBad, applyBounds, List.insertionSort]
  · unfold calculate
    rw [if_neg h1, if_neg (not_not_intro hr)]
    simp [boundsBad, applyBounds, List.insertionSort]
  · simp [calculateOld, hsort, oldMin, oldMax, truthy, oldLoop]
  · simp [calculateOld, hsort]

/-- C3 witness: photo 3 cm, image 400 px: `calculated_dpi = 1016/3 ≈ 338.67`,
the scan_batcher variant recommends 338, the old variant the raw float. -/
theorem empty_menu_truncates_witness :
    (calculate 3 400 none none none "mx" =
      .ok (calculatedDpi 3 400, pyInt (calculatedDpi 3 400), []))
    ∧ (calculate 3 400 none none (some []) "mx" =
      .ok (calculatedDpi 3 400, pyInt (calculatedDpi 3 400), []))
    ∧ (calculateOld 3 3 400 400 none none none "mx").2.1
        = (calculateOld 3 3 400 400 none none none "mx").1
    ∧ (calculateOld 3 3 400 400 none none none "mx").2.2 = [] :=
  empty_menu_truncates 3 400 "mx" (by norm_num) (by norm_num) (Or.inr (Or.inl rfl))
    3 3 400 400 none "mx" rfl

/-- C3 counterexample: the old calculator returns `recommended_dpi` WITHOUT any
`int()` conversion: with an empty menu and no bounds, a 3×3 cm photo at 400×400
px yields the raw float `1016/3 ≈ 338.67`, not the truncated integer 338 the
claim asserts. -/
theorem empty_menu_truncation_refuted :
    calculateOld 3 3 400 400 none none none "mx" = (1016/3, 1016/3, [])
    ∧ pyInt (1016/3) = 338
    ∧ ((1016/3 : ℚ)) ≠ ((338 : ℤ) : ℚ) := by
  refine ⟨?_, by norm_num [pyInt], by norm_num⟩
  norm_num [calculateOld, pySortedMenu, oldMin, oldMax, oldLoop, truthy, cmToInch,
    List.insertionSort]

/-- C2 (amended): for a non-empty all-positive DPI menu, positive dimensions
and consistent bounds, `calculate` succeeds and its options list pairs each
menu entry `d` (sorted ascending, one pair per entry) with
`int(d * photo_min_side / 2.54)` — the pixel extent computed from the single
photo side the calculator receives, which by its contract is the photo's
SHORTER side, not the long one. -/
theorem menuOptions_map_fst (photo : ℚ) (s : List ℤ) :
    (menuOptions photo s).map Prod.fst = s := by
  induction s with
  | nil => rfl
  | cons a t ih => simpa [menuOptions] using ih

theorem options_pair_short_side (photo : ℚ) (image : ℤ) (mn mx : Option ℤ)
    (menu : List ℤ) (rnd : String)
    (hp : 0 < photo) (hi : 0 < image)
    (hr : rnd = "nr" ∨ rnd = "mx" ∨ rnd = "mn")
    (hb : boundsBad mn mx = false)
    (hne : menu ≠ [])
    (hpos : ∀ x ∈ menu, 0 < x) :
    (∃ r : ℤ, calculate photo image mn mx (some menu) rnd =
        .ok (calculatedDpi photo image, r,
             menuOptions photo (List.insertionSort (· ≤ ·) menu)))
    ∧ ((menuOptions photo (List.insertionSort (· ≤ ·) menu)).map Prod.fst).Perm menu
    ∧ List.Sorted (· ≤ ·)
        ((menuOptions photo (List.insertionSort (· ≤ ·) menu)).map Prod.fst) := by
  have hperm := List.perm_insertionSort (· ≤ ·) menu
  have hsne : List.insertionSort (· ≤ ·) menu ≠ [] := by
    intro h
    apply hne
    have := hperm.length_eq
    rw [h] at this
    exact List.length_eq_zero.mp this.symm
  have hspos : ∀ x ∈ List.insertionSort (· ≤ ·) menu, 0 < x :=
    fun x hx => hpos x (hperm.subset hx)
  obtain ⟨o, hd⟩ := discretize_ok rnd (calculatedDpi photo image)
    (List.insertionSort (· ≤ ·) menu) none hspos
  refine ⟨⟨pyInt (applyBounds mn mx (recFromOpt (List.insertionSort (· ≤ ·) menu) o)), ?_⟩,
    ?_, ?_⟩
  · exact calculate_menu_ok photo image mn mx menu _ rnd o hp hi hr hb rfl hsne hd
  · rw [menuOptions_map_fst]
    exact hperm
  · rw [menuOptions_map_fst]
    exact List.sorted_insertionSort (· ≤ ·) menu

/-- C2 witness: photo side 10 cm, image 2000 px, menu `[300, 150]`. -/
theorem options_pair_short_side_witness :
    (∃ r : ℤ, calculate 10 2000 none none (some [300, 150]) "nr" =
        .ok (calculatedDpi 10 2000, r,
             menuOptions 10 (List.insertionSort (· ≤ ·) ([300, 150] : List ℤ))))
    ∧ ((menuOptions 10 (List.insertionSort (· ≤ ·) ([300, 150] : List ℤ))).map
          Prod.fst).Perm [300, 150]
    ∧ List.Sorted (· ≤ ·)
        ((menuOptions 10 (List.insertionSort (· ≤ ·) ([300, 150] : List ℤ))).map Prod.fst) :=
  options_pair_short_side 10 2000 none none [300, 150] "nr" (by norm_num) (by norm_num)
    (Or.inl rfl) rfl (by decide) (by decide)

/-- C2 counterexample: a 15×10 cm photo (long side 15, short side 10 — the
calculator receives the short side per its `photo_min_side` contract), menu
`[300]`: the code pairs 300 with `int(300·10/2.54) = 1181`, while the spec's
long-side formula gives `floor(300·15/2.54) = 1771`. -/
theorem options_long_side_refuted :
    calculate 10 2000 none none (some [300]) "nr" = .ok (508, 300, [(300, 1181)])
    ∧ optionsSpecLong 15 [300] = [(300, 1771)]
    ∧ ((1181 : ℤ)) ≠ 1771 := by
  refine ⟨?_, ?_, by decide⟩
  · norm_num [calculate, calculatedDpi, cmToInch, discretize, boundsBad, applyBounds,
      recFromOpt, menuOptions, pyInt, List.insertionSort, List.orderedInsert]
  · norm_num [optionsSpecLong, cmToInch, List.insertionSort, List.orderedInsert]

/-- C5 (amended): in the old calculator, `calculated_dpi` and `recommended_dpi`
are invariant under swapping the photo pair, and the whole result is invariant
under swapping the image pair; but the options triples carry the per-axis
extents in the order the photo sides were supplied, so a photo swap swaps
those extents instead of leaving the result unchanged. -/
theorem orientation_invariance_core (pw ph : ℚ) (iw ih : ℤ) (mn mx : Option ℤ)
    (menu : Option (List ℤ)) (rnd : String) :
    (calculateOld pw ph iw ih mn mx menu rnd).1 = (calculateOld ph pw iw ih mn mx menu rnd).1
    ∧ (calculateOld pw ph iw ih mn mx menu rnd).2.1
        = (calculateOld ph pw iw ih mn mx menu rnd).2.1
    ∧ calculateOld pw ph iw ih mn mx menu rnd = calculateOld pw ph ih iw mn mx menu rnd
    ∧ (calculateOld ph pw iw ih mn mx menu rnd).2.2 =
        (calculateOld pw ph iw ih mn mx menu rnd).2.2.map (fun t => (t.1, t.2.2, t.2.1)) := by
  refine ⟨?_, ?_, ?_, ?_⟩
  · unfold calculateOld
    dsimp only
    rw [max_comm ph pw, min_comm ph pw]
  · unfold calculateOld
    dsimp only
    rw [max_comm ph pw, min_comm ph pw]
  · unfold calculateOld
    dsimp only
    rw [max_comm ih iw, min_comm ih iw]
  · unfold calculateOld
    dsimp only
    rw [List.map_map]
    rfl

/-- C5 counterexample: photo 15×10 vs 10×15 (image 3000×2000, menu `[300]`,
NEAREST): `calculated_dpi` and `recommended_dpi` agree but the option triples
swap their pixel extents, so the full results differ. -/
theorem orientation_invariance_refuted :
    calculateOld 15 10 3000 2000 none none (some [300]) "nr" =
      (508, 300, [(300, 1771, 1181)])
    ∧ calculateOld 10 15 3000 2000 none none (some [300]) "nr" =
      (508, 300, [(300, 1181, 1771)])
    ∧ calculateOld 15 10 3000 2000 none none (some [300]) "nr" ≠
      calculateOld 10 15 3000 2000 none none (some [300]) "nr" := by
  have h1 : calculateOld 15 10 3000 2000 none none (some [300]) "nr" =
      (508, 300, [(300, 1771, 1181)]) := by
    norm_num [calculateOld, pySortedMenu, oldMin, oldMax, oldLoop, truthy, cmToInch, pyInt,
      List.insertionSort, List.orderedInsert]
  have h2 : calculateOld 10 15 3000 2000 none none (some [300]) "nr" =
      (508, 300, [(300, 1181, 1771)]) := by
    norm_num [calculateOld, pySortedMenu, oldMin, oldMax, oldLoop, truthy, cmToInch, pyInt,
      List.insertionSort, List.orderedInsert]
  refine ⟨h1, h2, ?_⟩
  rw [h1, h2]
  intro h
  injection h with ha hb
  injection hb with hb hc
  simp at hc

/-- C8 (amended): with positive dimensions and a valid rounding mode,
supplying `min_dpi > max_dpi` makes `calculate` fail with the bounds
`ValueError` before any menu processing or DPI arithmetic, whatever the menu
(even one the menu check would itself reject). -/
theorem bounds_conflict_rejected (photo : ℚ) (image : ℤ) (a b : ℤ)
    (menu : Option (List ℤ)) (rnd : String)
    (hp : 0 < photo) (hi : 0 < image)
    (hr : rnd = "nr" ∨ rnd = "mx" ∨ rnd = "mn")
    (hab : b < a) :
    calculate photo image (some a) (some b) menu rnd = .error CalcError.invalidBounds := by
  have h1 : ¬ (photo ≤ 0 ∨ image ≤ 0) := by push_neg; exact ⟨hp, hi⟩
  unfold calculate
  rw [if_neg h1, if_neg (not_not_intro hr), if_pos (by simp [boundsBad, hab])]

/-- C8 witness: `min_dpi = 5 > max_dpi = 3` with a menu containing non-positive
entries still reports the bounds conflict. -/
theorem bounds_conflict_rejected_witness :
    calculate 10 100 (some 5) (some 3) (some [0, -7]) "nr" = .error CalcError.invalidBounds :=
  bounds_conflict_rejected 10 100 5 3 (some [0, -7]) "nr" (by norm_num) (by norm_num)
    (Or.inl rfl) (by decide)

/-- C8 counterexample: the dimension and rounding validations run BEFORE the
bounds check, so with `min_dpi = 5 > max_dpi = 3` a non-positive photo side
yields the dimension error and an unknown rounding code yields the rounding
error — not the claimed `InvalidBounds` "regardless of the dimensions ... and
rounding mode supplied". -/
theorem bounds_check_order_refuted :
    calculate (-1) 100 (some 5) (some 3) none "nr" = .error CalcError.invalidDimension
    ∧ calculate 10 100 (some 5) (some 3) none "zz" = .error CalcError.invalidRounding
    ∧ CalcError.invalidDimension ≠ CalcError.invalidBounds
    ∧ CalcError.invalidRounding ≠ CalcError.invalidBounds := by
  have h : ¬ ("zz" = "nr" ∨ "zz" = "mx" ∨ "zz" = "mn") := by decide
  exact ⟨by norm_num [calculate], by norm_num [calculate, h], by decide, by decide⟩

/-- C9: any rounding code outside `{"nr", "mx", "mn"}` is rejected with the
"Invalid rounding strategy" `ValueError` before any DPI computation, even when
every other argument is valid. -/
theorem invalid_rounding_rejected (photo : ℚ) (image : ℤ) (mn mx : Option ℤ)
    (menu : Option (List ℤ)) (rnd : String)
    (hp : 0 < photo) (hi : 0 < image)
    (hb : boundsBad mn mx = false)
    (hmenu : ∀ l, menu = some l → ∀ x ∈ l, 0 < x)
    (hr : ¬ (rnd = "nr" ∨ rnd = "mx" ∨ rnd = "mn")) :
    calculate photo image mn mx menu rnd = .error CalcError.invalidRounding := by
  have h1 : ¬ (photo ≤ 0 ∨ image ≤ 0) := by push_neg; exact ⟨hp, hi⟩
  unfold calculate
  rw [if_neg h1, if_pos hr]

/-- C9 witness: the long-form code `"up"` is rejected on otherwise valid
arguments. -/
theorem invalid_rounding_rejected_witness :
    calculate 10 100 none none (some [300]) "up" = .error CalcError.invalidRounding :=
  invalid_rounding_rejected 10 100 none none (some [300]) "up" (by norm_num) (by norm_num)
    rfl (by intro l hl; injection hl with h; subst h; decide) (by decide)

theorem splitOnColon_ne_nil (l : List Char) : splitOnColon l ≠ [] := by
  cases l with
  | nil => simp [splitOnColon]
  | cons c rest =>
    simp only [splitOnColon]
    split
    · simp
    · split <;> simp

theorem matchAt_inner_ne_nil (l inner after : List Char)
    (h : matchAt l = some (inner, after)) : inner ≠ [] := by
  cases l with
  | nil => simp [matchAt] at h
  | cons c rest =>
    simp only [matchAt] at h
    by_cases hc : c = nlChar
    · rw [if_pos hc] at h
      simp at h
    · rw [if_neg hc] at h
      rcases hsc : scanClose rest with _ | ⟨inn, r2⟩
      · rw [hsc] at h
        simp at h
      · rw [hsc] at h
        simp only [Option.some.injEq, Prod.mk.injEq] at h
        rw [← h.1]
        simp

theorem findTemplatesF_ne_nil :
    ∀ (fuel : ℕ) (s t : List Char), t ∈ findTemplatesF fuel s → t ≠ [] := by
  intro fuel
  induction fuel with
  | zero =>
    intro s t ht
    simp [findTemplatesF] at ht
  | succ n ih =>
    intro s t ht
    cases s with
    | nil => simp [findTemplatesF] at ht
    | cons c rest =>
      simp only [findTemplatesF] at ht
      by_cases hc : c = lbrace
      · rw [if_pos hc] at ht
        rcases hmm : matchAt rest with _ | ⟨inner, after⟩
        · rw [hmm] at ht
          exact ih rest t ht
        · rw [hmm] at ht
          rcases List.mem_cons.mp ht with h1 | h2
          · subst h1
            exact matchAt_inner_ne_nil rest t after hmm
          · exact ih after t h2
      · rw [if_neg hc] at ht
        exact ih rest t ht

theorem convertFields_ne_empty (ctx : List (String × String)) (key : List Char)
    (restF : List (List Char)) :
    convertFields ctx key restF ≠ Except.error TemplateError.emptyTemplate := by
  unfold convertFields
  split
  · simp
  · split
    · simp
    · split <;> simp

theorem convertValue_ne_empty (ctx : List (String × String)) (v : List Char) :
    convertValue ctx v ≠ Except.error TemplateError.emptyTemplate := by
  unfold convertValue
  rcases h : splitOnColon v with _ | ⟨key, restF⟩
  · exact absurd h (splitOnColon_ne_nil v)
  · exact convertFields_ne_empty ctx key restF

/-- C6 (amended): in the scan_batcher variant, a successful substitution
replaces EVERY occurrence of the matched span's text in the accumulated result
(`str.replace` semantics), not only the matched span itself, so a substituted
value that equals a later-matched span is rewritten again: with context
`a = "{b}", b = "X"`, the text `"{a} {b}"` resolves to `"X X"` (both braces
gone), and with `a = "Y"` the text `"{a}{a}"` resolves to `"YY"`. The old
classes variant additionally REASSIGNS its loop variable to each matched span,
so from the second match on it slices an empty string out of the first span's
text and fails with a diagnostic: there the same inputs yield `"{b} {b}"`
resp. `"YY"`, each with one logged message. -/
theorem substitution_replaces_all_occurrences :
    replaceTemplates [("a", "\x7bb\x7d"), ("b", "X")] ("\x7ba\x7d \x7bb\x7d".toList) =
      ("X X".toList, [])
    ∧ replaceTemplates [("a", "Y")] ("\x7ba\x7d\x7ba\x7d".toList) = ("YY".toList, [])
    ∧ convertTemplateOld [("a", "\x7bb\x7d"), ("b", "X")] ("\x7ba\x7d \x7bb\x7d".toList) =
      ("\x7bb\x7d \x7bb\x7d".toList, [errMsgOld []])
    ∧ convertTemplateOld [("a", "Y")] ("\x7ba\x7d\x7ba\x7d".toList) =
      ("YY".toList, [errMsgOld []]) := by
  decide

/-- C6 counterexample: with context `a = "{b}", b = "X"`, the claim predicts
`"{a} {b}"` resolves to `"{b} X"` (only the original spans replaced); the
scan_batcher code produces `"X X"` and the old classes code `"{b} {b}"` with a
diagnostic — neither leaves the other text untouched as claimed. -/
theorem span_only_substitution_refuted :
    (replaceTemplates [("a", "\x7bb\x7d"), ("b", "X")] ("\x7ba\x7d \x7bb\x7d".toList)).1 =
      "X X".toList
    ∧ (convertTemplateOld [("a", "\x7bb\x7d"), ("b", "X")] ("\x7ba\x7d \x7bb\x7d".toList)).1 =
      "\x7bb\x7d \x7bb\x7d".toList
    ∧ "X X".toList ≠ "\x7bb\x7d X".toList
    ∧ "\x7bb\x7d \x7bb\x7d".toList ≠ "\x7bb\x7d X".toList := by
  decide

/-- C7 (amended): a placeholder whose key is absent from the context is
skipped: its own resolution performs no replacement, one diagnostic is logged,
and processing continues — so `"{missing}_ok"` resolves unchanged with one
logged message (though a later successful substitution may still rewrite parts
of a failed placeholder's text, see the counterexample). -/
theorem missing_key_skipped (ctx : List (String × String))
    (h : lookupKey ctx "missing" = none) :
    replaceTemplates ctx ("\x7bmissing\x7d_ok".toList) =
      ("\x7bmissing\x7d_ok".toList, [errMsg ("\x7bmissing\x7d_ok".toList)]) := by
  have hft : findTemplates ("\x7bmissing\x7d_ok".toList) =
      [['m', 'i', 's', 's', 'i', 'n', 'g']] := by decide
  have hcv : convertValue ctx ['m', 'i', 's', 's', 'i', 'n', 'g'] =
      .error .keyNotFound := by
    have hsp : splitOnColon ['m', 'i', 's', 's', 'i', 'n', 'g'] =
        [['m', 'i', 's', 's', 'i', 'n', 'g']] := by decide
    unfold convertValue
    rw [hsp]
    show convertFields ctx ['m', 'i', 's', 's', 'i', 'n', 'g'] [] = .error .keyNotFound
    unfold convertFields
    rw [show String.mk ['m', 'i', 's', 's', 'i', 'n', 'g'] = "missing" from rfl, h]
  unfold replaceTemplates
  rw [hft]
  simp [applyTemplate, hcv]

/-- C7 witness: the empty context lacks the key `"missing"`. -/
theorem missing_key_skipped_witness :
    replaceTemplates [] ("\x7bmissing\x7d_ok".toList) =
      ("\x7bmissing\x7d_ok".toList, [errMsg ("\x7bmissing\x7d_ok".toList)]) :=
  missing_key_skipped [] rfl

/-- C7 counterexample: in `"{x{a}y} {a}"` with context `a = "Q"`, the first
matched placeholder `{x{a}` has key `"x{a"`, which is absent — yet the later
successful substitution of `{a}` rewrites text inside it (`str.replace`
replaces every occurrence), so the failed placeholder's literal text is NOT
left unreplaced in the output: the result is `"{xQy} Q"`. -/
theorem missing_key_preservation_refuted :
    ("x\x7ba".toList ∈ findTemplates ("\x7bx\x7ba\x7dy\x7d \x7ba\x7d".toList))
    ∧ lookupKey [("a", "Q")] "x\x7ba" = none
    ∧ replaceTemplates [("a", "Q")] ("\x7bx\x7ba\x7dy\x7d \x7ba\x7d".toList) =
        ("\x7bxQy\x7d Q".toList, [errMsg ("\x7bx\x7ba\x7dy\x7d \x7ba\x7d".toList)])
    ∧ ¬ ("\x7bx\x7ba\x7d".toList <:+: "\x7bxQy\x7d Q".toList) := by
  decide

/-- C10 (amended): every matched template group is non-empty (`.+?` requires at
least one inner character), and the "An empty template was found" branch of
`_convert_value` is unreachable for any input (`split` always yields at least
one field). The bare two-character sequence `"{}"` is therefore never itself a
matched span — but it CAN open a longer match when another `}` follows, so a
string containing `"{}"` is not always left unchanged (see the
counterexample). -/
theorem no_empty_placeholder (s t : List Char) (ht : t ∈ findTemplates s)
    (ctx : List (String × String)) (v : List Char) :
    t ≠ [] ∧ convertValue ctx v ≠ Except.error TemplateError.emptyTemplate :=
  ⟨findTemplatesF_ne_nil s.length s t ht, convertValue_ne_empty ctx v⟩

/-- C10 witness: the only match of `"{a}"` is the non-empty group `"a"`. -/
theorem no_empty_placeholder_witness :
    (['a'] : List Char) ≠ []
    ∧ convertValue [] ['a'] ≠ Except.error TemplateError.emptyTemplate :=
  no_empty_placeholder ("\x7ba\x7d".toList) ['a'] (by decide) [] ['a']

/-- C10 counterexample: `"{}x}"` contains `"{}"`, yet the scanner matches the
whole span `{}x}` with group `"}x"`: with that key in the context the string
is rewritten to `"Q"` (the `"{}"` disappears), and with an empty context a
diagnostic IS emitted — refuting both "leaves that sequence unchanged" and
"emits no diagnostic". -/
theorem empty_braces_unchanged_refuted :
    ("\x7b\x7d".toList <:+: "\x7b\x7dx\x7d".toList)
    ∧ findTemplates ("\x7b\x7dx\x7d".toList) = ["\x7dx".toList]
    ∧ replaceTemplates [("\x7dx", "Q")] ("\x7b\x7dx\x7d".toList) = ("Q".toList, [])
    ∧ ¬ ("\x7b\x7d".toList <:+: "Q".toList)
    ∧ replaceTemplates [] ("\x7b\x7dx\x7d".toList) =
        ("\x7b\x7dx\x7d".toList, [errMsg ("\x7b\x7dx\x7d".toList)]) := by
  decide
